import Mathlib

/-!
Shallow embedding of the SCS Python extension module
(`src/python/scsmodule.c`) and proofs about its validation, parsing,
result-packaging and teardown behaviour.

Modelling conventions:
* the solver scalar types `idxint` and `pfloat` are modelled as `Int` and
  `Rat`; every float value the module itself computes with (the option
  defaults, nonnegativity tests, and the millisecond-to-second division
  by `1e3`) is exact in binary floating point, so `Rat` is faithful here;
* Python objects are modelled by the variants the module distinguishes
  (`PyInt_Check`/`PyLong_Check`, `PyFloat_Check`, `PyList_Check`, numpy
  arrays, anything else);
* a numpy array carries its dtype kind, its `ndim`, and its contents
  (the module only reads contents of one-dimensional arrays);
* C out-parameters are modelled by passing the initial value in and
  returning the final value; the `scs_calloc`-ed structures that receive
  them start from the all-zero state;
* heap/reference-count effects are modelled as the trace of release
  actions (`Rel`) that `freePyData` performs, so that "released exactly
  once on this path" is a statement about a list.
-/

set_option maxHeartbeats 1600000

namespace ScsPy

/-- dtype kind of a numpy array, as far as the module inspects it
(`PyArray_ISFLOAT`, `PyArray_ISINTEGER`). -/
inductive NpKind where
  | kfloat
  | kint
  | kother
deriving DecidableEq

/-- A numpy `PyArrayObject`: dtype kind, `ndim`, and the underlying
one-dimensional contents (the module rejects other ranks before reading
data, so a single list suffices). -/
structure NpArray where
  kind : NpKind
  ndim : Nat
  data : List Rat
deriving DecidableEq

/-- The Python values `scsmodule.c` distinguishes with its
`PyInt_Check` / `PyLong_Check` / `PyFloat_Check` / `PyList_Check` /
array probes.  (In Python 3 `PyInt_Check` is `#define`-d to
`PyLong_Check`, so a single integer variant is faithful.) -/
inductive PyVal where
  | pyInt (i : Int)
  | pyFloat (x : Rat)
  | pyList (l : List PyVal)
  | pyArr (a : NpArray)
  | pyNone

/-- A Python dictionary, as the module uses it: `PyDict_GetItemString`
lookups only. -/
def PyDict := List (String × PyVal)

/-- `PyDict_GetItemString`. -/
def dictGet (d : PyDict) (key : String) : Option PyVal :=
  match d with
  | [] => none
  | (k, v) :: rest => if k == key then some v else dictGet rest key

/-- `PyArray_ISFLOAT`. -/
def PyArray_ISFLOAT (a : NpArray) : Bool := a.kind == NpKind.kfloat

/-- `PyArray_ISINTEGER`. -/
def PyArray_ISINTEGER (a : NpArray) : Bool := a.kind == NpKind.kint

/-- `PyArray_NDIM`. -/
def PyArray_NDIM (a : NpArray) : Nat := a.ndim

/-- `PyArray_DIM(a, 0)` (only ever read after the `ndim == 1` check). -/
def PyArray_DIM (a : NpArray) : Int := (a.data.length : Int)

/-- `getContiguous` (lines 64-78): `PyArray_GETCONTIGUOUS` followed by
`PyArray_Cast` to the requested type; the contents are preserved. -/
def getContiguous (a : NpArray) (ty : NpKind) : NpArray := { a with kind := ty }

/-- The stderr diagnostic written by `printErr` (lines 80-83):
`error parsing '<key>'`; the function itself returns `-1`. -/
def printErrMsg (key : String) : String := "error parsing \x27" ++ key ++ "\x27"

/-- `getWarmStart` (lines 85-99).  Returns the buffer stored through the
`pfloat ** x` out-parameter (a `scs_calloc`-ed zero buffer of length `l`,
replaced by the array data when the entry is a valid one-dimensional
float array of length `l`), the `idxint` return flag as a `Bool`, and the
coerced-array ownership stored through `px0` (written only on success).
A present value that is not an array object is cast and probed anyway in
the C; the probe fails and the entry is treated exactly like an invalid
array. -/
def getWarmStart (key : String) (l : Int) (warm : PyDict) :
    List Rat × Bool × Option NpArray :=
  match dictGet warm key with
  | some (PyVal.pyArr a) =>
      if !PyArray_ISFLOAT a || PyArray_NDIM a != 1 || PyArray_DIM a != l then
        (List.replicate l.toNat 0, false, none)
      else
        ((getContiguous a NpKind.kfloat).data, true,
          some (getContiguous a NpKind.kfloat))
  | some _ => (List.replicate l.toNat 0, false, none)
  | none => (List.replicate l.toNat 0, false, none)

/-- One element of a cone list, as tested at lines 112-113: it must pass
`PyInt_Check`/`PyLong_Check` and the converted value must be `≥ 0`. -/
def coneElemVal : PyVal → Option Int
  | PyVal.pyInt i => if 0 ≤ i then some i else none
  | _ => none

/-- The loop of `getConeArrDim` (lines 110-116): convert every element,
failing at the first one that is not a nonnegative integer. -/
def coneListVals : List PyVal → Option (List Int)
  | [] => some []
  | e :: rest =>
      match coneElemVal e with
      | some v => (coneListVals rest).map (fun vs => v :: vs)
      | none => none

/-- Result of `getConeArrDim`: the `int` return value, the values of the
`idxint ** varr` / `idxint * vsize` out-parameters after the call (on
failure they are left at the values they held before the call), and the
stderr diagnostic, if any. -/
structure ConeArrOut where
  ret : Int
  varr : Option (List Int)
  vsize : Int
  errLog : Option String
deriving DecidableEq

/-- `getConeArrDim` (lines 101-131).  `varr0`/`vsize0` are the values the
out-parameters hold before the call (the only caller passes the fields of
an `scs_calloc`-ed `Cone`, i.e. `none` and `0`). -/
def getConeArrDim (key : String) (cone : PyDict)
    (varr0 : Option (List Int)) (vsize0 : Int) : ConeArrOut :=
  match dictGet cone key with
  | none => ⟨0, none, 0, none⟩
  | some (PyVal.pyList l) =>
      match coneListVals l with
      | some vs => ⟨0, some vs, (l.length : Int), none⟩
      | none => ⟨-1, varr0, vsize0, some (printErrMsg key)⟩
  | some (PyVal.pyInt i) =>
      if 0 ≤ i then ⟨0, some [i], 1, none⟩
      else ⟨-1, varr0, vsize0, some (printErrMsg key)⟩
  | some _ => ⟨-1, varr0, vsize0, some (printErrMsg key)⟩

/-- `getPosIntParam` (lines 133-145): returns the value written through
`idxint * v` (the default first, then the converted entry if present —
also when that entry is negative and the call fails) and the `int`
return code (`0` ok, `-1` error). -/
def getPosIntParam (key : String) (defVal : Int) (opts : Option PyDict) :
    Int × Int :=
  match opts with
  | none => (defVal, 0)
  | some o =>
      match dictGet o key with
      | none => (defVal, 0)
      | some (PyVal.pyInt i) => if 0 ≤ i then (i, 0) else (i, -1)
      | some _ => (defVal, -1)

/-- `getOptFloatParam` (lines 147-164): same out-parameter discipline as
`getPosIntParam`, accepting an integer or float entry that is `≥ 0`. -/
def getOptFloatParam (key : String) (defVal : Rat) (opts : Option PyDict) :
    Rat × Int :=
  match opts with
  | none => (defVal, 0)
  | some o =>
      match dictGet o key with
      | none => (defVal, 0)
      | some (PyVal.pyInt i) =>
          if (i : Rat) < 0 then ((i : Rat), -1) else ((i : Rat), 0)
      | some (PyVal.pyFloat x) => if 0 ≤ x then (x, 0) else (x, -1)
      | some _ => (defVal, -1)

/-- The solver `AMatrix` wrapper (CSC data pointers). -/
structure AMatrix where
  x : List Rat
  i : List Rat
  p : List Rat

/-- The solver `Cone` structure. `q`/`s` are nullable heap arrays. -/
structure Cone where
  f : Int
  l : Int
  q : Option (List Int)
  qsize : Int
  s : Option (List Int)
  ssize : Int
  ep : Int
  ed : Int

/-- The solver `Data` structure, restricted to the fields the module
touches.  `WARM_START` is an `idxint` that only ever holds `0` or `1`,
modelled as a `Bool`. -/
structure Data where
  m : Int
  n : Int
  A : Option AMatrix
  b : Option (List Rat)
  c : Option (List Rat)
  MAX_ITERS : Int
  VERBOSE : Int
  NORMALIZE : Int
  SCALE : Rat
  EPS : Rat
  CG_RATE : Rat
  ALPHA : Rat
  RHO_X : Rat
  WARM_START : Bool

/-- The `scs_calloc`-ed `Data` after `PyArg_ParseTupleAndKeywords` has
written `m` and `n` into it (line 270 and 285). -/
def callocData (m n : Int) : Data :=
  { m := m, n := n, A := none, b := none, c := none,
    MAX_ITERS := 0, VERBOSE := 0, NORMALIZE := 0,
    SCALE := 0, EPS := 0, CG_RATE := 0, ALPHA := 0, RHO_X := 0,
    WARM_START := false }

/-- The `scs_calloc`-ed `Cone` (line 271). -/
def callocCone : Cone :=
  { f := 0, l := 0, q := none, qsize := 0, s := none, ssize := 0,
    ep := 0, ed := 0 }

/-- `parseOpts` (lines 166-184): the `Data` after the writes it performed
and the `int` return code.  The `NORMALIZE` line tests the raw return
code for truth (`if (getPosIntParam(...))`) instead of `< 0`, which is
mirrored by the `≠ 0` test. -/
def parseOpts (d : Data) (opts : Option PyDict) : Data × Int :=
  let p1 := getPosIntParam "MAX_ITERS" 2500 opts
  let d1 := { d with MAX_ITERS := p1.1 }
  if p1.2 < 0 then (d1, -1) else
  let p2 := getPosIntParam "VERBOSE" 1 opts
  let d2 := { d1 with VERBOSE := p2.1 }
  if p2.2 < 0 then (d2, -1) else
  let p3 := getPosIntParam "NORMALIZE" 1 opts
  let d3 := { d2 with NORMALIZE := p3.1 }
  if p3.2 ≠ 0 then (d3, -1) else
  let p4 := getOptFloatParam "SCALE" 5 opts
  let d4 := { d3 with SCALE := p4.1 }
  if p4.2 < 0 then (d4, -1) else
  let p5 := getOptFloatParam "EPS" 1e-3 opts
  let d5 := { d4 with EPS := p5.1 }
  if p5.2 < 0 then (d5, -1) else
  let p6 := getOptFloatParam "CG_RATE" 2 opts
  let d6 := { d5 with CG_RATE := p6.1 }
  if p6.2 < 0 then (d6, -1) else
  let p7 := getOptFloatParam "ALPHA" 1.8 opts
  let d7 := { d6 with ALPHA := p7.1 }
  if p7.2 < 0 then (d7, -1) else
  let p8 := getOptFloatParam "RHO_X" 1e-3 opts
  let d8 := { d7 with RHO_X := p8.1 }
  if p8.2 < 0 then (d8, -1) else
  (d8, 0)

/-- The coerced-buffer ownership record `struct ScsPyData` (lines 31-40):
each field is `NULL` until `getContiguous` output is stored in it. -/
structure ScsPyData where
  Ax : Option NpArray
  Ai : Option NpArray
  Ap : Option NpArray
  b : Option NpArray
  c : Option NpArray
  x0 : Option NpArray
  y0 : Option NpArray
  s0 : Option NpArray

/-- The all-`NULL` initializer `{ NULL, ..., NULL }` of line 268. -/
def emptyPyData : ScsPyData :=
  ⟨none, none, none, none, none, none, none, none⟩

/-- One release action performed by `freePyData`: a `Py_DECREF` of a
coerced buffer, an `scs_free` of a cone heap array, or an `scs_free` of
one of the native structures. -/
inductive Rel where
  | rAx
  | rAi
  | rAp
  | rB
  | rC
  | rX0
  | rY0
  | rS0
  | rKq
  | rKs
  | rKone
  | rDA
  | rData
deriving DecidableEq

/-- `freePyData` (lines 186-223), as the trace of release actions it
performs: every release is guarded by a presence check, and the `Cone`
and `Data` structures themselves are freed after their members. -/
def freePyData (d : Option Data) (k : Option Cone) (ps : ScsPyData) :
    List Rel :=
  (if ps.Ax.isSome then [Rel.rAx] else []) ++
  (if ps.Ai.isSome then [Rel.rAi] else []) ++
  (if ps.Ap.isSome then [Rel.rAp] else []) ++
  (if ps.b.isSome then [Rel.rB] else []) ++
  (if ps.c.isSome then [Rel.rC] else []) ++
  (if ps.x0.isSome then [Rel.rX0] else []) ++
  (if ps.y0.isSome then [Rel.rY0] else []) ++
  (if ps.s0.isSome then [Rel.rS0] else []) ++
  (match k with
   | none => []
   | some kk =>
       (if kk.q.isSome then [Rel.rKq] else []) ++
       (if kk.s.isSome then [Rel.rKs] else []) ++ [Rel.rKone]) ++
  (match d with
   | none => []
   | some dd =>
       (if dd.A.isSome then [Rel.rDA] else []) ++ [Rel.rData])

/-- Python exception classes the module can raise through
`PyErr_SetString`. -/
inductive ExcKind where
  | valueError
  | typeError
  | memoryError
deriving DecidableEq

/-- A raised Python exception: its class and its message. -/
structure PyErr where
  kind : ExcKind
  msg : String
deriving DecidableEq

/-- The solver `Info` structure (native units: `solveTime` and
`setupTime` in milliseconds). -/
structure Info where
  statusVal : Int
  iter : Int
  pobj : Rat
  dobj : Rat
  resPri : Rat
  resDual : Rat
  relGap : Rat
  solveTime : Rat
  setupTime : Rat
  status : String

/-- The `info` dictionary built by `Py_BuildValue` at lines 401-405. -/
structure InfoDict where
  statusVal : Int
  iter : Int
  pobj : Rat
  dobj : Rat
  resPri : Rat
  resDual : Rat
  relGap : Rat
  solveTime : Rat
  setupTime : Rat
  status : String

/-- Lines 401-405: diagnostics copied by value, with `solveTime` and
`setupTime` divided by `1e3` (milliseconds to seconds). -/
def buildInfoDict (i : Info) : InfoDict :=
  { statusVal := i.statusVal, iter := i.iter, pobj := i.pobj,
    dobj := i.dobj, resPri := i.resPri, resDual := i.resDual,
    relGap := i.relGap, solveTime := i.solveTime / 1e3,
    setupTime := i.setupTime / 1e3, status := i.status }

/-- The solver `Sol` structure: nullable primal/dual/slack buffers
(`Sol sol = { 0 }` at line 273 starts them all `NULL`). -/
structure Sol where
  x : Option (List Rat)
  y : Option (List Rat)
  s : Option (List Rat)

/-- The opaque native solve `scs(d, k, &sol, &info)`: it reads the
assembled `Data` and `Cone`, reads/overwrites the `Sol` buffers, and
produces an `Info`.  `csolve` is parametric in it. -/
def Solver := Data → Cone → Sol → Sol × Info

/-- The successful return value of `csolve`, together with the values it
handed to the native solver (recorded so that theorems can speak about
the solver's input; the C hands these over by pointer). -/
structure SolveOut where
  x : Option (List Rat)
  y : Option (List Rat)
  s : Option (List Rat)
  info : InfoDict
  dPassed : Data
  kPassed : Cone
  solPassed : Sol
  rawInfo : Info

/-- `finishWithErr` (lines 225-229): raise a `ValueError` carrying the
message, run `freePyData` once, and return `NULL`. -/
def finishWithErr (d : Option Data) (k : Option Cone) (ps : ScsPyData)
    (str : String) : Except PyErr SolveOut × List (List Rel) :=
  (Except.error ⟨ExcKind.valueError, str⟩, [freePyData d k ps])

/-- Lines 305-343 of `csolve` ("set A", "set c", "set b"): the array
type/shape validations in source order, interleaved with the
`getContiguous` coercions and the `Data` writes.  Returns the `Data` and
coerced-buffer ownership state as built at the point of return, and the
error message when a check failed. -/
def assembleProblem (m n : Int) (Ax Ai Ap b c : NpArray) :
    (Data × ScsPyData) × Option String :=
  if !PyArray_ISFLOAT Ax || PyArray_NDIM Ax != 1 then
    ((callocData m n, emptyPyData), some "Ax must be a numpy array of floats")
  else if !PyArray_ISINTEGER Ai || PyArray_NDIM Ai != 1 then
    ((callocData m n, emptyPyData), some "Ai must be a numpy array of ints")
  else if !PyArray_ISINTEGER Ap || PyArray_NDIM Ap != 1 then
    ((callocData m n, emptyPyData), some "Ap must be a numpy array of ints")
  else
    -- lines 315-323: coerce Ax/Ai/Ap, build the AMatrix wrapper, set d->A
    let ps1 : ScsPyData :=
      { emptyPyData with
        Ax := some (getContiguous Ax NpKind.kfloat),
        Ai := some (getContiguous Ai NpKind.kint),
        Ap := some (getContiguous Ap NpKind.kint) }
    let d1 : Data :=
      { callocData m n with
        A := some ⟨(getContiguous Ax NpKind.kfloat).data,
                   (getContiguous Ai NpKind.kint).data,
                   (getContiguous Ap NpKind.kint).data⟩ }
    if !PyArray_ISFLOAT c || PyArray_NDIM c != 1 then
      ((d1, ps1), some "c must be a dense numpy array with one dimension")
    else if PyArray_DIM c != n then
      ((d1, ps1), some "c has incompatible dimension with A")
    else
      let ps2 := { ps1 with c := some (getContiguous c NpKind.kfloat) }
      let d2 := { d1 with c := some (getContiguous c NpKind.kfloat).data }
      if !PyArray_ISFLOAT b || PyArray_NDIM b != 1 then
        ((d2, ps2), some "b must be a dense numpy array with one dimension")
      else if PyArray_DIM b != m then
        ((d2, ps2), some "b has incompatible dimension with A")
      else
        (({ d2 with b := some (getContiguous b NpKind.kfloat).data },
          { ps2 with b := some (getContiguous b NpKind.kfloat) }), none)

/-- Lines 345-362 of `csolve`: parse the six cone fields in source
order into the `scs_calloc`-ed `Cone`, stopping at the first failure.
Returns the `Cone` as built at the point of return and the
`finishWithErr` message when a parse failed. -/
def parseConeFields (cone : PyDict) : Cone × Option String :=
  let pf := getPosIntParam "f" 0 (some cone)
  let k1 := { callocCone with f := pf.1 }
  if pf.2 < 0 then (k1, some "failed to parse cone field f") else
  let pl := getPosIntParam "l" 0 (some cone)
  let k2 := { k1 with l := pl.1 }
  if pl.2 < 0 then (k2, some "failed to parse cone field l") else
  let pq := getConeArrDim "q" cone k2.q k2.qsize
  let k3 := { k2 with q := pq.varr, qsize := pq.vsize }
  if pq.ret < 0 then (k3, some "failed to parse cone field q") else
  let pscone := getConeArrDim "s" cone k3.s k3.ssize
  let k4 := { k3 with s := pscone.varr, ssize := pscone.vsize }
  if pscone.ret < 0 then (k4, some "failed to parse cone field s") else
  let pep := getPosIntParam "ep" 0 (some cone)
  let k5 := { k4 with ep := pep.1 }
  if pep.2 < 0 then (k5, some "failed to parse cone field ep") else
  let ped := getPosIntParam "ed" 0 (some cone)
  let k6 := { k5 with ed := ped.1 }
  if ped.2 < 0 then (k6, some "failed to parse cone field ed") else
  (k6, none)

/-- Lines 368-373 of `csolve`: the warm-start loads.  Produces the
`Data` with its final `WARM_START` flag, the ownership state extended by
the coerced warm-start arrays, and the `Sol` handed to the solver
(`d->n` and `d->m` there are the unpacked `n` and `m`). -/
def loadWarmStarts (d : Data) (ps : ScsPyData) (m n : Int)
    (warm : Option PyDict) : Data × ScsPyData × Sol :=
  match warm with
  | none => ({ d with WARM_START := false }, ps, ⟨none, none, none⟩)
  | some w =>
      ({ d with
         WARM_START :=
           (getWarmStart "x" n w).2.1 || (getWarmStart "y" m w).2.1 ||
             (getWarmStart "s" m w).2.1 },
       { ps with
         x0 := (getWarmStart "x" n w).2.2,
         y0 := (getWarmStart "y" m w).2.2,
         s0 := (getWarmStart "s" m w).2.2 },
       ⟨some (getWarmStart "x" n w).1, some (getWarmStart "y" m w).1,
        some (getWarmStart "s" m w).1⟩)

/-- `csolve` (lines 231-417), starting after
`PyArg_ParseTupleAndKeywords` has unpacked the arguments (so `m`, `n`
are the shape integers, `Ax … c` are array objects, `cone` is a dict and
`opts`/`warm` are optional dicts).  The second component is the list of
`freePyData` invocations the call performed, each as its release trace.
Note that the two initial sign checks (lines 291-299) return without
invoking `freePyData`, although the `Data` and `Cone` of lines 270-271
are already allocated at that point. -/
def csolve (solver : Solver) (m n : Int) (Ax Ai Ap b c : NpArray)
    (cone : PyDict) (opts warm : Option PyDict) :
    Except PyErr SolveOut × List (List Rel) :=
  if m < 0 then
    (Except.error ⟨ExcKind.valueError, "m must be a positive integer"⟩, [])
  else if n < 0 then
    (Except.error ⟨ExcKind.valueError, "n must be a positive integer"⟩, [])
  else
    match assembleProblem m n Ax Ai Ap b c with
    | (state, some msg) =>
        finishWithErr (some state.1) (some callocCone) state.2 msg
    | ((d3, ps3), none) =>
        match parseConeFields cone with
        | (kk, some msg) => finishWithErr (some d3) (some kk) ps3 msg
        | (k6, none) =>
            -- line 363: options
            let po := parseOpts d3 opts
            if po.2 < 0 then
              finishWithErr (some po.1) (some k6) ps3 "failed to parse opts"
            else
              let wres := loadWarmStarts po.1 ps3 m n warm
              -- line 374: the native solve, then lines 376-416: packaging
              let r := solver wres.1 k6 wres.2.2
              (Except.ok
                { x := r.1.x, y := r.1.y, s := r.1.s,
                  info := buildInfoDict r.2,
                  dPassed := wres.1, kPassed := k6, solPassed := wres.2.2,
                  rawInfo := r.2 },
               [freePyData (some wres.1) (some k6) wres.2.1])

/-! ### Observation helpers and spec-side definitions -/

/-- Did the call succeed?  (`csolve` returns `NULL` exactly when it
raised an exception.) -/
def exOk : Except PyErr SolveOut → Bool
  | Except.ok _ => true
  | Except.error _ => false

/-- The class of the raised exception, when the call failed. -/
def errKindOf : Except PyErr SolveOut → Option ExcKind
  | Except.ok _ => none
  | Except.error e => some e.kind

/-- The `WARM_START` flag of the `Data` handed to the solver, when the
call succeeded. -/
def warmFlagOf : Except PyErr SolveOut → Option Bool
  | Except.ok o => some o.dPassed.WARM_START
  | Except.error _ => none

/-- The `solveTime` entry of the returned `info` dictionary. -/
def solveTimeOf : Except PyErr SolveOut → Option Rat
  | Except.ok o => some o.info.solveTime
  | Except.error _ => none

/-- The `setupTime` entry of the returned `info` dictionary. -/
def setupTimeOf : Except PyErr SolveOut → Option Rat
  | Except.ok o => some o.info.setupTime
  | Except.error _ => none

/-- The solver's native (millisecond) `solveTime`. -/
def rawSolveTimeOf : Except PyErr SolveOut → Option Rat
  | Except.ok o => some o.rawInfo.solveTime
  | Except.error _ => none

/-- The solver's native (millisecond) `setupTime`. -/
def rawSetupTimeOf : Except PyErr SolveOut → Option Rat
  | Except.ok o => some o.rawInfo.setupTime
  | Except.error _ => none

/-- A value passing the cone-element test: a Python integer whose value
is nonnegative. -/
def isNonnegInt : PyVal → Bool
  | PyVal.pyInt i => decide (0 ≤ i)
  | _ => false

/-- The integer carried by a Python integer (for stating what the cone
parser returns on an all-integers list). -/
def pyIntVal : PyVal → Int
  | PyVal.pyInt i => i
  | _ => 0

/-- A value of one of the two types the cone-array parser accepts. -/
def isIntOrList : PyVal → Bool
  | PyVal.pyInt _ => true
  | PyVal.pyList _ => true
  | _ => false

/-- The option key is missing from the (possibly absent) mapping. -/
def keyAbsent (opts : Option PyDict) (key : String) : Prop :=
  ∀ o, opts = some o → dictGet o key = none

/-- An error message names an argument when it begins with that
argument's name (every `csolve` validation message starts with the name
of the offending argument). -/
def namesArg (arg msg : String) : Bool := arg.data.isPrefixOf msg.data

/-- Spec side (§4.4): the problem-assembly checks in the order the spec
states them — (1) `m ≥ 0` and `n ≥ 0`, (2) `Ax` one-dimensional float,
(3) `Ai` one-dimensional integer, (4) `Ap` one-dimensional integer,
(5) `c` one-dimensional float of length `n`, (6) `b` one-dimensional
float of length `m` — each as (failure condition, offending argument,
error message). -/
def assembleChecksSpec (m n : Int) (Ax Ai Ap b c : NpArray) :
    List (Bool × String × String) :=
  [ (decide (m < 0), "m", "m must be a positive integer"),
    (decide (n < 0), "n", "n must be a positive integer"),
    (!PyArray_ISFLOAT Ax || PyArray_NDIM Ax != 1, "Ax",
      "Ax must be a numpy array of floats"),
    (!PyArray_ISINTEGER Ai || PyArray_NDIM Ai != 1, "Ai",
      "Ai must be a numpy array of ints"),
    (!PyArray_ISINTEGER Ap || PyArray_NDIM Ap != 1, "Ap",
      "Ap must be a numpy array of ints"),
    (!PyArray_ISFLOAT c || PyArray_NDIM c != 1, "c",
      "c must be a dense numpy array with one dimension"),
    (PyArray_DIM c != n, "c", "c has incompatible dimension with A"),
    (!PyArray_ISFLOAT b || PyArray_NDIM b != 1, "b",
      "b must be a dense numpy array with one dimension"),
    (PyArray_DIM b != m, "b", "b has incompatible dimension with A") ]

/-- Spec side: the first check in the list whose failure condition
holds, with its argument name and message. -/
def firstFailingCheck : List (Bool × String × String) → Option (String × String)
  | [] => none
  | (cond, arg, msg) :: rest =>
      if cond then some (arg, msg) else firstFailingCheck rest

/-- The presence check guarding each release in `freePyData`. -/
def relPresent (d : Option Data) (k : Option Cone) (ps : ScsPyData) :
    Rel → Bool
  | Rel.rAx => ps.Ax.isSome
  | Rel.rAi => ps.Ai.isSome
  | Rel.rAp => ps.Ap.isSome
  | Rel.rB => ps.b.isSome
  | Rel.rC => ps.c.isSome
  | Rel.rX0 => ps.x0.isSome
  | Rel.rY0 => ps.y0.isSome
  | Rel.rS0 => ps.s0.isSome
  | Rel.rKq => match k with | none => false | some kk => kk.q.isSome
  | Rel.rKs => match k with | none => false | some kk => kk.s.isSome
  | Rel.rKone => k.isSome
  | Rel.rDA => match d with | none => false | some dd => dd.A.isSome
  | Rel.rData => d.isSome

/-- All release actions, in the order `freePyData` performs them. -/
def allRels : List Rel :=
  [Rel.rAx, Rel.rAi, Rel.rAp, Rel.rB, Rel.rC, Rel.rX0, Rel.rY0, Rel.rS0,
   Rel.rKq, Rel.rKs, Rel.rKone, Rel.rDA, Rel.rData]

/-! ### Concrete fixtures (used by witnesses and counterexample runs) -/

/-- A well-typed one-element float array. -/
def aFx : NpArray := ⟨NpKind.kfloat, 1, [1]⟩

/-- A well-typed one-element int array. -/
def aIx : NpArray := ⟨NpKind.kint, 1, [0]⟩

/-- A well-typed two-element int array (column pointers). -/
def aPx : NpArray := ⟨NpKind.kint, 1, [0, 1]⟩

/-- A float array of length 2 (wrong length for `n = 1`). -/
def cLong : NpArray := ⟨NpKind.kfloat, 1, [1, 2]⟩

/-- A fixed diagnostics record with native times in milliseconds. -/
def info0 : Info :=
  { statusVal := 1, iter := 7, pobj := 0, dobj := 0, resPri := 0,
    resDual := 0, relGap := 0, solveTime := 1500, setupTime := 2000,
    status := "Solved" }

/-- A trivial opaque solver echoing its warm-start buffers and
returning `info0`. -/
def solver0 : Solver := fun _ _ s => (s, info0)

/-! ### Helper lemmas -/

theorem coneElemVal_none_iff (e : PyVal) :
    coneElemVal e = none ↔ isNonnegInt e = false := by
  cases e <;> simp [coneElemVal, isNonnegInt]

theorem coneListVals_none_of_bad (l : List PyVal)
    (hbad : ∃ e ∈ l, isNonnegInt e = false) : coneListVals l = none := by
  induction l with
  | nil => simp at hbad
  | cons e rest ih =>
      rcases hbad with ⟨e1, he1, hbad1⟩
      rcases List.mem_cons.1 he1 with rfl | hmem
      · simp [coneListVals, (coneElemVal_none_iff e1).2 hbad1]
      · cases hc : coneElemVal e <;>
          simp [coneListVals, hc, ih ⟨e1, hmem, hbad1⟩]

theorem coneListVals_all_nonneg (l : List PyVal)
    (h : ∀ e ∈ l, isNonnegInt e = true) :
    coneListVals l = some (l.map pyIntVal) := by
  induction l with
  | nil => rfl
  | cons e rest ih =>
      have he := h e (by simp)
      have hrest := ih (fun e2 he2 => h e2 (List.mem_cons_of_mem _ he2))
      cases e with
      | pyInt i =>
          simp [isNonnegInt] at he
          simp [coneListVals, coneElemVal, he, hrest, pyIntVal]
      | pyFloat x => simp [isNonnegInt] at he
      | pyList l2 => simp [isNonnegInt] at he
      | pyArr a => simp [isNonnegInt] at he
      | pyNone => simp [isNonnegInt] at he

theorem getPosIntParam_absent (key : String) (dv : Int) (opts : Option PyDict)
    (h : keyAbsent opts key) : getPosIntParam key dv opts = (dv, 0) := by
  cases opts with
  | none => rfl
  | some o => simp [getPosIntParam, h o rfl]

theorem getOptFloatParam_absent (key : String) (dv : Rat) (opts : Option PyDict)
    (h : keyAbsent opts key) : getOptFloatParam key dv opts = (dv, 0) := by
  cases opts with
  | none => rfl
  | some o => simp [getOptFloatParam, h o rfl]

theorem mem_ite_nil {c : Prop} [Decidable c] (a b : Rel) :
    a ∈ (if c then ([b] : List Rel) else []) ↔ c ∧ a = b := by
  split <;> simp_all

theorem count_ite_nil (c : Prop) [Decidable c] (a b : Rel) :
    ((if c then ([b] : List Rel) else []).count a) =
      if c ∧ a = b then 1 else 0 := by
  split_ifs <;> simp_all [List.count_cons, List.count_nil]

theorem firstFailingCheck_mem (l : List (Bool × String × String))
    (p : String × String) (h : firstFailingCheck l = some p) :
    ∃ cond, (cond, p.1, p.2) ∈ l := by
  induction l with
  | nil => simp [firstFailingCheck] at h
  | cons e rest ih =>
      obtain ⟨cond, a, s⟩ := e
      by_cases hc : cond = true
      · refine ⟨cond, ?_⟩
        simp only [firstFailingCheck, hc, if_true] at h
        obtain ⟨p1, p2⟩ := p
        obtain ⟨rfl, rfl⟩ := Prod.mk.inj (Option.some.inj h).symm
        simp
      · simp only [firstFailingCheck, hc, if_false, Bool.false_eq_true] at h
        obtain ⟨cond2, hmem⟩ := ih h
        exact ⟨cond2, by simp [hmem]⟩

theorem assembleChecksSpec_names (m n : Int) (Ax Ai Ap b c : NpArray) :
    ∀ t ∈ assembleChecksSpec m n Ax Ai Ap b c,
      namesArg t.2.1 t.2.2 = true := by
  intro t ht
  simp only [assembleChecksSpec, List.mem_cons, List.not_mem_nil, or_false] at ht
  rcases ht with rfl | rfl | rfl | rfl | rfl | rfl | rfl | rfl | rfl <;>
    first | decide | rfl

theorem assembleProblem_snd (m n : Int) (Ax Ai Ap b c : NpArray)
    (hm : ¬ m < 0) (hn : ¬ n < 0) :
    (firstFailingCheck (assembleChecksSpec m n Ax Ai Ap b c)).map
        (fun t => t.2) =
      (assembleProblem m n Ax Ai Ap b c).2 := by
  simp only [assembleChecksSpec, firstFailingCheck, assembleProblem, hm, hn]
  simp only [decide_eq_true_eq]
  split_ifs <;> simp_all

/-! ### The claims -/

/-- C1 (code bug in the source): with a negative `m` (here the spec's
example `shape = (-1, 2)` with otherwise valid arrays), `csolve` raises
the `ValueError` and returns with an empty list of `freePyData`
invocations — the Resource Reaper is never invoked on this path (nor on
the negative-`n` path), although the `Data` and `Cone` structures of
lines 270-271 are already allocated; by contrast, a later failing path
(`Ax` of integer dtype) and the success path each invoke `freePyData`
exactly once. -/
theorem csolve_negative_m_skips_reaper :
    csolve solver0 (-1) 2 aFx aIx aPx aFx aFx [] none none =
      (Except.error ⟨ExcKind.valueError, "m must be a positive integer"⟩, []) ∧
    (csolve solver0 1 1 aIx aIx aPx aFx aFx [] none none).2.length = 1 ∧
    (csolve solver0 1 1 aFx aIx aPx aFx aFx [] none none).2.length = 1 :=
  ⟨rfl, rfl, rfl⟩

/-- C2: for every cone mapping in which the key maps to a list containing
an element that is not a nonnegative integer (negative integers
included), `getConeArrDim` fails (returns `-1`) with the parse
diagnostic naming that key, and the out-parameters keep the caller's
zeroed state: size 0 and no (partial) array. -/
theorem getConeArrDim_negative_element_rejected (key : String) (cone : PyDict)
    (l : List PyVal) (hget : dictGet cone key = some (PyVal.pyList l))
    (hbad : ∃ e ∈ l, isNonnegInt e = false) :
    getConeArrDim key cone none 0 = ⟨-1, none, 0, some (printErrMsg key)⟩ := by
  simp [getConeArrDim, hget, coneListVals_none_of_bad l hbad]

theorem getConeArrDim_negative_element_rejected_witness :
    getConeArrDim "q" [("q", PyVal.pyList [PyVal.pyInt 2, PyVal.pyInt (-1)])]
        none 0 =
      ⟨-1, none, 0, some (printErrMsg "q")⟩ :=
  getConeArrDim_negative_element_rejected "q" _ _ rfl
    ⟨PyVal.pyInt (-1), by simp, by decide⟩

/-- C3: the four cases of `getConeArrDim` — absent key yields size 0 and
no array; a list of nonnegative integers yields that array and the
list's length; a single nonnegative integer scalar yields a one-element
array; any other value type fails with the parse diagnostic. -/
theorem getConeArrDim_cases (key : String) (cone : PyDict) :
    (dictGet cone key = none →
      getConeArrDim key cone none 0 = ⟨0, none, 0, none⟩) ∧
    (∀ l : List PyVal, dictGet cone key = some (PyVal.pyList l) →
      (∀ e ∈ l, isNonnegInt e = true) →
      getConeArrDim key cone none 0 =
        ⟨0, some (l.map pyIntVal), (l.length : Int), none⟩) ∧
    (∀ i : Int, dictGet cone key = some (PyVal.pyInt i) → 0 ≤ i →
      getConeArrDim key cone none 0 = ⟨0, some [i], 1, none⟩) ∧
    (∀ v : PyVal, dictGet cone key = some v → isIntOrList v = false →
      getConeArrDim key cone none 0 = ⟨-1, none, 0, some (printErrMsg key)⟩) := by
  refine ⟨fun h => by simp [getConeArrDim, h], fun l hget hall => ?_,
    fun i hget hi => by simp [getConeArrDim, hget, hi], fun v hget hv => ?_⟩
  · simp [getConeArrDim, hget, coneListVals_all_nonneg l hall]
  · cases v <;> simp [isIntOrList] at hv <;> simp [getConeArrDim, hget]

theorem getConeArrDim_cases_witness :
    getConeArrDim "q" [] none 0 = ⟨0, none, 0, none⟩ ∧
    getConeArrDim "q" [("q", PyVal.pyList [PyVal.pyInt 2, PyVal.pyInt 3])]
        none 0 = ⟨0, some [2, 3], 2, none⟩ ∧
    getConeArrDim "q" [("q", PyVal.pyInt 4)] none 0 = ⟨0, some [4], 1, none⟩ ∧
    getConeArrDim "q" [("q", PyVal.pyFloat 1)] none 0 =
      ⟨-1, none, 0, some (printErrMsg "q")⟩ :=
  ⟨(getConeArrDim_cases "q" []).1 rfl,
   (getConeArrDim_cases "q" _).2.1 [PyVal.pyInt 2, PyVal.pyInt 3] rfl
     (by decide),
   (getConeArrDim_cases "q" _).2.2.1 4 rfl (by decide),
   (getConeArrDim_cases "q" _).2.2.2 (PyVal.pyFloat 1) rfl rfl⟩

/-- C4: an absent options mapping yields every documented default, and
for any options mapping on which `parseOpts` succeeds, each recognized
key missing from the mapping leaves its documented default in the
`Data`: `MAX_ITERS = 2500`, `VERBOSE = 1`, `NORMALIZE = 1`, `SCALE = 5`,
`EPS = 1e-3`, `CG_RATE = 2`, `ALPHA = 1.8`, `RHO_X = 1e-3`. -/
theorem parseOpts_defaults (d : Data) (opts : Option PyDict) :
    (parseOpts d none =
      ({ d with MAX_ITERS := 2500, VERBOSE := 1, NORMALIZE := 1, SCALE := 5,
                EPS := 1e-3, CG_RATE := 2, ALPHA := 1.8, RHO_X := 1e-3 }, 0)) ∧
    ((parseOpts d opts).2 = 0 →
      (keyAbsent opts "MAX_ITERS" → (parseOpts d opts).1.MAX_ITERS = 2500) ∧
      (keyAbsent opts "VERBOSE" → (parseOpts d opts).1.VERBOSE = 1) ∧
      (keyAbsent opts "NORMALIZE" → (parseOpts d opts).1.NORMALIZE = 1) ∧
      (keyAbsent opts "SCALE" → (parseOpts d opts).1.SCALE = 5) ∧
      (keyAbsent opts "EPS" → (parseOpts d opts).1.EPS = 1e-3) ∧
      (keyAbsent opts "CG_RATE" → (parseOpts d opts).1.CG_RATE = 2) ∧
      (keyAbsent opts "ALPHA" → (parseOpts d opts).1.ALPHA = 1.8) ∧
      (keyAbsent opts "RHO_X" → (parseOpts d opts).1.RHO_X = 1e-3)) := by
  constructor
  · rfl
  · intro h
    simp only [parseOpts] at h ⊢
    split_ifs at h ⊢ <;> simp_all
    refine ⟨?_, ?_, ?_, ?_, ?_, ?_, ?_, ?_⟩ <;> intro hk <;>
      simp [getPosIntParam_absent _ _ _ hk, getOptFloatParam_absent _ _ _ hk]

theorem parseOpts_defaults_witness :
    (parseOpts (callocData 0 0) (some [])).1.MAX_ITERS = 2500 ∧
    (parseOpts (callocData 0 0) (some [])).1.VERBOSE = 1 ∧
    (parseOpts (callocData 0 0) (some [])).1.NORMALIZE = 1 ∧
    (parseOpts (callocData 0 0) (some [])).1.SCALE = 5 ∧
    (parseOpts (callocData 0 0) (some [])).1.EPS = 1e-3 ∧
    (parseOpts (callocData 0 0) (some [])).1.CG_RATE = 2 ∧
    (parseOpts (callocData 0 0) (some [])).1.ALPHA = 1.8 ∧
    (parseOpts (callocData 0 0) (some [])).1.RHO_X = 1e-3 := by
  have h := (parseOpts_defaults (callocData 0 0) (some [])).2 rfl
  have habs : ∀ key : String, keyAbsent (some ([] : PyDict)) key :=
    fun key o ho => by cases ho; rfl
  exact ⟨h.1 (habs _), h.2.1 (habs _), h.2.2.1 (habs _), h.2.2.2.1 (habs _),
    h.2.2.2.2.1 (habs _), h.2.2.2.2.2.1 (habs _), h.2.2.2.2.2.2.1 (habs _),
    h.2.2.2.2.2.2.2 (habs _)⟩

/-- C5: whenever one of the problem-assembly checks fails, `csolve`
aborts with the `ValueError` of the first failing check in the spec's
stated order (the spec-side list `assembleChecksSpec`), the message
names the offending argument, and the nine messages are pairwise
distinct; the length-of-`c` case is the seventh entry of that list. -/
theorem csolve_validation_order (solver : Solver) (m n : Int)
    (Ax Ai Ap b c : NpArray) (cone : PyDict) (opts warm : Option PyDict) :
    (∀ arg msg,
      firstFailingCheck (assembleChecksSpec m n Ax Ai Ap b c) = some (arg, msg) →
      (csolve solver m n Ax Ai Ap b c cone opts warm).1 =
        Except.error ⟨ExcKind.valueError, msg⟩ ∧ namesArg arg msg = true) ∧
    ((assembleChecksSpec m n Ax Ai Ap b c).map (fun t => t.2.2)).Nodup := by
  constructor
  · intro arg msg hfirst
    have hnames : namesArg arg msg = true := by
      obtain ⟨cond, hmem⟩ := firstFailingCheck_mem _ _ hfirst
      exact assembleChecksSpec_names m n Ax Ai Ap b c (cond, arg, msg) hmem
    refine ⟨?_, hnames⟩
    by_cases hm : m < 0
    · have h' : ("m", "m must be a positive integer") = (arg, msg) := by
        simpa [assembleChecksSpec, firstFailingCheck, hm] using hfirst
      obtain ⟨rfl, rfl⟩ := Prod.mk.inj h'
      simp [csolve, hm]
    · by_cases hn : n < 0
      · have h' : ("n", "n must be a positive integer") = (arg, msg) := by
          simpa [assembleChecksSpec, firstFailingCheck, hm, hn] using hfirst
        obtain ⟨rfl, rfl⟩ := Prod.mk.inj h'
        simp [csolve, hm, hn]
      · have hmap := assembleProblem_snd m n Ax Ai Ap b c hm hn
        rw [hfirst] at hmap
        simp only [csolve]
        generalize hA : assembleProblem m n Ax Ai Ap b c = pA at hmap ⊢
        obtain ⟨⟨dd, pps⟩, msgA⟩ := pA
        cases msgA with
        | none => simp at hmap
        | some msg0 =>
            simp only [Option.map_some] at hmap
            obtain rfl := Option.some.inj hmap
            split_ifs <;> simp_all [finishWithErr]
  · simp only [assembleChecksSpec, List.map_cons, List.map_nil]
    decide

theorem csolve_validation_order_witness :
    (csolve solver0 1 1 aFx aIx aPx aFx cLong [] none none).1 =
      Except.error ⟨ExcKind.valueError, "c has incompatible dimension with A"⟩ ∧
    namesArg "c" "c has incompatible dimension with A" = true :=
  (csolve_validation_order solver0 1 1 aFx aIx aPx aFx cLong [] none none).1
    "c" "c has incompatible dimension with A" rfl

/-- C6: a warm-start entry that is present but is not a one-dimensional
float array of exactly the expected length is reported not-present with
a zero-filled buffer of the expected length and no ownership taken, and
the outcome (success or failure) of the whole call never depends on the
warm mapping. -/
theorem getWarmStart_invalid_treated_absent :
    (∀ (key : String) (l : Int) (warm : PyDict) (v : PyVal),
      dictGet warm key = some v →
      (∀ a : NpArray, v = PyVal.pyArr a →
        ¬(a.kind = NpKind.kfloat ∧ a.ndim = 1 ∧ (a.data.length : Int) = l)) →
      getWarmStart key l warm = (List.replicate l.toNat 0, false, none)) ∧
    (∀ (solver : Solver) (m n : Int) (Ax Ai Ap b c : NpArray)
      (cone : PyDict) (opts : Option PyDict) (w : PyDict),
      exOk (csolve solver m n Ax Ai Ap b c cone opts (some w)).1 =
        exOk (csolve solver m n Ax Ai Ap b c cone opts none).1) := by
  constructor
  · intro key l warm v hget hbad
    cases v with
    | pyArr a =>
        by_cases h1 : a.kind = NpKind.kfloat
        · by_cases h2 : a.ndim = 1
          · by_cases h3 : (a.data.length : Int) = l
            · exact absurd ⟨h1, h2, h3⟩ (hbad a rfl)
            · simp [getWarmStart, hget, PyArray_ISFLOAT, PyArray_NDIM,
                PyArray_DIM, h1, h2, h3]
          · simp [getWarmStart, hget, PyArray_ISFLOAT, PyArray_NDIM,
              PyArray_DIM, h1, h2]
        · simp [getWarmStart, hget, PyArray_ISFLOAT, PyArray_NDIM,
            PyArray_DIM, h1]
    | pyInt i => simp [getWarmStart, hget]
    | pyFloat x => simp [getWarmStart, hget]
    | pyList l2 => simp [getWarmStart, hget]
    | pyNone => simp [getWarmStart, hget]
  · intro solver m n Ax Ai Ap b c cone opts w
    simp only [csolve]
    generalize hA : assembleProblem m n Ax Ai Ap b c = pA
    obtain ⟨⟨dd, pps⟩, msgA⟩ := pA
    generalize hK : parseConeFields cone = pK
    obtain ⟨kk, msgK⟩ := pK
    cases msgA <;> cases msgK <;> split_ifs <;>
      simp_all [finishWithErr, exOk] <;>
      (try (split_ifs <;> simp_all [finishWithErr, exOk]))

theorem getWarmStart_invalid_treated_absent_witness :
    getWarmStart "x" 2 [("x", PyVal.pyArr ⟨NpKind.kfloat, 1, [1, 2, 3]⟩)] =
      (List.replicate (2 : Int).toNat 0, false, none) ∧
    exOk (csolve solver0 1 1 aFx aIx aPx aFx aFx [] none
        (some [("x", PyVal.pyArr ⟨NpKind.kfloat, 1, [1, 2, 3]⟩)])).1 =
      exOk (csolve solver0 1 1 aFx aIx aPx aFx aFx [] none none).1 :=
  ⟨getWarmStart_invalid_treated_absent.1 "x" 2 _ _ rfl
      (by intro a ha; cases ha; decide),
   getWarmStart_invalid_treated_absent.2 solver0 1 1 aFx aIx aPx aFx aFx []
      none _⟩

/-- C7: on every successful call the `WARM_START` flag handed to the
solver is the logical OR of the three per-field presence flags returned
by `getWarmStart` for keys `x` (length `n`), `y` and `s` (length `m`),
and is `false` when no warm mapping is supplied. -/
theorem csolve_warm_start_flag_or (solver : Solver) (m n : Int)
    (Ax Ai Ap b c : NpArray) (cone : PyDict) (opts warm : Option PyDict)
    (h : exOk (csolve solver m n Ax Ai Ap b c cone opts warm).1 = true) :
    warmFlagOf (csolve solver m n Ax Ai Ap b c cone opts warm).1 =
      some (match warm with
            | none => false
            | some w =>
                (getWarmStart "x" n w).2.1 || (getWarmStart "y" m w).2.1 ||
                  (getWarmStart "s" m w).2.1) := by
  cases warm <;>
    (simp only [csolve] at h ⊢;
     generalize hA : assembleProblem m n Ax Ai Ap b c = pA at h ⊢;
     obtain ⟨⟨dd, pps⟩, msgA⟩ := pA;
     generalize hK : parseConeFields cone = pK at h ⊢;
     obtain ⟨kk, msgK⟩ := pK;
     cases msgA <;> cases msgK <;> split_ifs at h ⊢ <;>
       simp_all [finishWithErr, exOk, warmFlagOf, loadWarmStarts] <;>
       (try (split_ifs at h ⊢ <;>
         simp_all [finishWithErr, exOk, warmFlagOf, loadWarmStarts])))

theorem csolve_warm_start_flag_or_witness :
    warmFlagOf (csolve solver0 1 1 aFx aIx aPx aFx aFx [] none
        (some [("x", PyVal.pyArr aFx)])).1 = some true ∧
    warmFlagOf (csolve solver0 1 1 aFx aIx aPx aFx aFx [] none none).1 =
      some false :=
  ⟨(csolve_warm_start_flag_or solver0 1 1 aFx aIx aPx aFx aFx [] none
      (some [("x", PyVal.pyArr aFx)]) rfl).trans rfl,
   (csolve_warm_start_flag_or solver0 1 1 aFx aIx aPx aFx aFx [] none none
      rfl).trans rfl⟩

/-- C8: on every successful call the `solveTime` and `setupTime` entries
of the returned `info` dictionary are the solver's native millisecond
values divided by 1000. -/
theorem csolve_times_ms_to_seconds (solver : Solver) (m n : Int)
    (Ax Ai Ap b c : NpArray) (cone : PyDict) (opts warm : Option PyDict)
    (h : exOk (csolve solver m n Ax Ai Ap b c cone opts warm).1 = true) :
    solveTimeOf (csolve solver m n Ax Ai Ap b c cone opts warm).1 =
      (rawSolveTimeOf (csolve solver m n Ax Ai Ap b c cone opts warm).1).map
        (fun t => t / 1000) ∧
    setupTimeOf (csolve solver m n Ax Ai Ap b c cone opts warm).1 =
      (rawSetupTimeOf (csolve solver m n Ax Ai Ap b c cone opts warm).1).map
        (fun t => t / 1000) := by
  have h1000 : (1e3 : Rat) = 1000 := by norm_num
  simp only [csolve] at h ⊢
  generalize hA : assembleProblem m n Ax Ai Ap b c = pA at h ⊢
  obtain ⟨⟨dd, pps⟩, msgA⟩ := pA
  generalize hK : parseConeFields cone = pK at h ⊢
  obtain ⟨kk, msgK⟩ := pK
  cases msgA <;> cases msgK <;> split_ifs at h ⊢ <;>
    simp_all [finishWithErr, exOk, solveTimeOf, rawSolveTimeOf, setupTimeOf,
      rawSetupTimeOf, buildInfoDict, h1000] <;>
    (try (split_ifs at h ⊢ <;>
      simp_all [finishWithErr, exOk, solveTimeOf, rawSolveTimeOf, setupTimeOf,
        rawSetupTimeOf, buildInfoDict, h1000]))

theorem csolve_times_ms_to_seconds_witness :
    solveTimeOf (csolve solver0 1 1 aFx aIx aPx aFx aFx [] none none).1 =
      some ((1500 : Rat) / 1000) ∧
    setupTimeOf (csolve solver0 1 1 aFx aIx aPx aFx aFx [] none none).1 =
      some ((2000 : Rat) / 1000) ∧
    (1500 : Rat) / 1000 = 1.5 ∧ (2000 : Rat) / 1000 = 2 := by
  have h := csolve_times_ms_to_seconds solver0 1 1 aFx aIx aPx aFx aFx []
    none none rfl
  exact ⟨h.1.trans rfl, h.2.trans rfl, by norm_num, by norm_num⟩

/-- C9: `freePyData` releases each resource exactly when its field is in
the set (non-`NULL`) state — never an unset field, and never any
resource twice (the trace has no duplicates). -/
theorem freePyData_releases_exactly_present (d : Option Data)
    (k : Option Cone) (ps : ScsPyData) :
    (freePyData d k ps).Nodup ∧
    (Rel.rAx ∈ freePyData d k ps ↔ ps.Ax.isSome = true) ∧
    (Rel.rAi ∈ freePyData d k ps ↔ ps.Ai.isSome = true) ∧
    (Rel.rAp ∈ freePyData d k ps ↔ ps.Ap.isSome = true) ∧
    (Rel.rB ∈ freePyData d k ps ↔ ps.b.isSome = true) ∧
    (Rel.rC ∈ freePyData d k ps ↔ ps.c.isSome = true) ∧
    (Rel.rX0 ∈ freePyData d k ps ↔ ps.x0.isSome = true) ∧
    (Rel.rY0 ∈ freePyData d k ps ↔ ps.y0.isSome = true) ∧
    (Rel.rS0 ∈ freePyData d k ps ↔ ps.s0.isSome = true) ∧
    (Rel.rKq ∈ freePyData d k ps ↔ ∃ kk, k = some kk ∧ kk.q.isSome = true) ∧
    (Rel.rKs ∈ freePyData d k ps ↔ ∃ kk, k = some kk ∧ kk.s.isSome = true) ∧
    (Rel.rKone ∈ freePyData d k ps ↔ k.isSome = true) ∧
    (Rel.rDA ∈ freePyData d k ps ↔ ∃ dd, d = some dd ∧ dd.A.isSome = true) ∧
    (Rel.rData ∈ freePyData d k ps ↔ d.isSome = true) := by
  constructor
  · rw [List.nodup_iff_count_le_one]
    intro r
    cases d <;> cases k <;> cases r <;>
      simp [freePyData, List.count_append, count_ite_nil] <;>
      split_ifs <;> simp
  · refine ⟨?_, ?_, ?_, ?_, ?_, ?_, ?_, ?_, ?_, ?_, ?_, ?_, ?_⟩ <;>
      cases d <;> cases k <;>
      simp [freePyData, List.mem_append, mem_ite_nil]

/-- C10: every error `csolve` reports after argument unpacking is raised
as a `ValueError`; the spec's ShapeError/TypeError/ParseError taxonomy is
carried only by the message text. -/
theorem csolve_errors_are_ValueError (solver : Solver) (m n : Int)
    (Ax Ai Ap b c : NpArray) (cone : PyDict) (opts warm : Option PyDict)
    (h : exOk (csolve solver m n Ax Ai Ap b c cone opts warm).1 = false) :
    errKindOf (csolve solver m n Ax Ai Ap b c cone opts warm).1 =
      some ExcKind.valueError := by
  simp only [csolve] at h ⊢
  generalize hA : assembleProblem m n Ax Ai Ap b c = pA at h ⊢
  obtain ⟨⟨dd, pps⟩, msgA⟩ := pA
  generalize hK : parseConeFields cone = pK at h ⊢
  obtain ⟨kk, msgK⟩ := pK
  cases msgA <;> cases msgK <;> split_ifs at h ⊢ <;>
    simp_all [finishWithErr, errKindOf, exOk] <;>
    (try (split_ifs at h ⊢ <;> simp_all [finishWithErr, errKindOf, exOk]))

theorem csolve_errors_are_ValueError_witness :
    errKindOf (csolve solver0 (-1) 2 aFx aIx aPx aFx aFx [] none none).1 =
      some ExcKind.valueError :=
  csolve_errors_are_ValueError solver0 (-1) 2 aFx aIx aPx aFx aFx [] none
    none rfl

end ScsPy
